import Mathlib

/-!
Verification of the AMM RPC facade (`pallets/amm/rpc/src/lib.rs`).

The source file is a thin dispatcher: each of the four RPC methods resolves
the optional block hash (defaulting to the client's best block), calls the
corresponding runtime-api method, and on failure wraps the runtime error
into a `jsonrpc_core` error with `ServerError(1)`, a fixed per-operation
message, and a debug rendering of the failure as the `data` payload.

The embedding below models the runtime-api client as a record of functions
(`Client`), mirroring the trait bounds `ProvideRuntimeApi + HeaderBackend`:
`best_hash` stands for `client.info().best_hash`, the four `api_*` fields
stand for the runtime-api calls, and `debugFmt` stands for the `Debug`
rendering `format` of the runtime error used by `map_err`.
-/

namespace AmmRpc

/-- `BalanceInfo` from `module_amm_rpc_runtime_api`: the wire-level pair of
asset identifier and amount returned by the queries. -/
structure BalanceInfo (AssetId Balance : Type) where
  asset : AssetId
  amount : Balance
  deriving DecidableEq, Repr

/-- `jsonrpc_core::ErrorCode`. -/
inductive ErrorCode where
  | parseFailure
  | invalidRequest
  | methodNotFound
  | invalidParams
  | internalFault
  | serverError (code : Int)
  deriving DecidableEq, Repr

/-- `jsonrpc_core::Error` as produced by this layer: `data` is always built
from a `String` (the `Debug` rendering), so it is modelled as
`Option String`. -/
structure RpcError where
  code : ErrorCode
  message : String
  data : Option String
  deriving DecidableEq, Repr

/-- The `Error` enum of the RPC module (`pub enum Error`). -/
inductive Error where
  | RuntimeError
  deriving DecidableEq, Repr

/-- `impl From<Error> for i64`. -/
def Error.toInt : Error → Int
  | .RuntimeError => 1

/-- The client handle held by `AMM<C, B>`: `best_hash` models
`HeaderBackend::info().best_hash`, the `api_*` fields model the
`AMMRuntimeApi` methods (each taking the resolved block hash), and
`debugFmt` models the `Debug` rendering of the runtime-api error type. -/
structure Client (Hash AccountId AssetId Balance E : Type) where
  best_hash : Hash
  debugFmt : E → String
  api_get_spot_price : Hash → AssetId → AssetId → Balance → Except E (BalanceInfo AssetId Balance)
  api_get_sell_price : Hash → AssetId → AssetId → Balance → Except E (BalanceInfo AssetId Balance)
  api_get_buy_price : Hash → AssetId → AssetId → Balance → Except E (BalanceInfo AssetId Balance)
  api_get_pool_balances : Hash → AccountId → Except E (List (BalanceInfo AssetId Balance))

variable {Hash AccountId AssetId Balance E : Type}

/-- `AMM::get_spot_price`: resolve the block hash
(`at.unwrap_or_else(best_hash)`), call the runtime api, and `map_err` any
failure into `ServerError(1)` with the fixed message and debug payload. -/
def get_spot_price (c : Client Hash AccountId AssetId Balance E)
    (asset_a asset_b : AssetId) (amount : Balance) (atBlock : Option Hash) :
    Except RpcError (BalanceInfo AssetId Balance) :=
  (c.api_get_spot_price (atBlock.getD c.best_hash) asset_a asset_b amount).mapError fun e =>
    { code := .serverError Error.RuntimeError.toInt
      message := "Unable to get spot price."
      data := some (c.debugFmt e) }

/-- `AMM::get_sell_price`, same shape as `get_spot_price`. -/
def get_sell_price (c : Client Hash AccountId AssetId Balance E)
    (asset_a asset_b : AssetId) (amount : Balance) (atBlock : Option Hash) :
    Except RpcError (BalanceInfo AssetId Balance) :=
  (c.api_get_sell_price (atBlock.getD c.best_hash) asset_a asset_b amount).mapError fun e =>
    { code := .serverError Error.RuntimeError.toInt
      message := "Unable to calculate sell price."
      data := some (c.debugFmt e) }

/-- `AMM::get_buy_price`, same shape as `get_spot_price`. -/
def get_buy_price (c : Client Hash AccountId AssetId Balance E)
    (asset_a asset_b : AssetId) (amount : Balance) (atBlock : Option Hash) :
    Except RpcError (BalanceInfo AssetId Balance) :=
  (c.api_get_buy_price (atBlock.getD c.best_hash) asset_a asset_b amount).mapError fun e =>
    { code := .serverError Error.RuntimeError.toInt
      message := "Unable to calculate buy price."
      data := some (c.debugFmt e) }

/-- `AMM::get_pool_balances`, returning the runtime-api list unchanged on
success. -/
def get_pool_balances (c : Client Hash AccountId AssetId Balance E)
    (pool_address : AccountId) (atBlock : Option Hash) :
    Except RpcError (List (BalanceInfo AssetId Balance)) :=
  (c.api_get_pool_balances (atBlock.getD c.best_hash) pool_address).mapError fun e =>
    { code := .serverError Error.RuntimeError.toInt
      message := "Unable to retrieve pool balances."
      data := some (c.debugFmt e) }

/-- A spy client over concrete types: every engine method reports back the
block hash it was invoked with (inside the returned value), so theorems can
observe exactly which snapshot the dispatcher passed to the engine. -/
def spyClient (best : Nat) : Client Nat Nat Nat Nat String where
  best_hash := best
  debugFmt := fun e => e
  api_get_spot_price := fun h a _ _ => .ok ⟨a, h⟩
  api_get_sell_price := fun h a _ _ => .ok ⟨a, h⟩
  api_get_buy_price := fun h a _ _ => .ok ⟨a, h⟩
  api_get_pool_balances := fun h _ => .ok [⟨h, h⟩]

/-- A client whose engine methods all fail with a fixed runtime error. -/
def errClient : Client Nat Nat Nat Nat String where
  best_hash := 0
  debugFmt := fun e => e
  api_get_spot_price := fun _ _ _ _ => .error "NoPoolFound"
  api_get_sell_price := fun _ _ _ _ => .error "NoPoolFound"
  api_get_buy_price := fun _ _ _ _ => .error "NoPoolFound"
  api_get_pool_balances := fun _ _ => .error "NoPoolFound"

/-- A client whose pool-balances method succeeds with the empty list. -/
def emptyPoolClient : Client Nat Nat Nat Nat String where
  best_hash := 0
  debugFmt := fun e => e
  api_get_spot_price := fun _ _ _ _ => .error "NoPoolFound"
  api_get_sell_price := fun _ _ _ _ => .error "NoPoolFound"
  api_get_buy_price := fun _ _ _ _ => .error "NoPoolFound"
  api_get_pool_balances := fun _ _ => .ok []

/-- A minimal JSON value model for the wire payloads. -/
inductive Json where
  | str (s : String)
  | num (n : Int)
  | boolean (b : Bool)
  | null
  | arr (xs : List Json)
  | obj (fields : List (String × Json))

/-- `BalanceRequest<Balance>`: the request payload shape declared with
`serde(rename_all = "camelCase", deny_unknown_fields)` and a single field
`amount`. -/
structure BalanceRequest (Balance : Type) where
  amount : Balance
  deriving DecidableEq, Repr

/-- Modelled from the spec: the serde-generated deserializer for
`BalanceRequest` (the derive expansion is not under `src/`; this follows the
declared attributes and the spec's wording that unrecognized fields are a
hard parse error, never silently dropped). The payload must be an object
whose every field is named `amount`, exactly once; the field value is
decoded by the supplied `Balance` codec. -/
def deserializeBalanceRequest (parseBalance : Json → Except String Balance) :
    Json → Except String (BalanceRequest Balance)
  | .obj fields =>
    match fields.find? (fun f => !(f.1 == "amount")) with
    | some f => .error ("unknown field " ++ f.1)
    | none =>
      match fields with
      | [(_, v)] => (parseBalance v).map fun b => ⟨b⟩
      | [] => .error "missing field amount"
      | _ => .error "duplicate field amount"
  | _ => .error "invalid type: expected struct BalanceRequest"

/-- One decimal digit of an amount string, as a non-negative integer. -/
def digitVal (ch : Char) : Option Int :=
  if ch.isDigit then some (Int.ofNat (ch.toNat - 48)) else none

/-- Fold a decimal digit string into an integer; any non-digit aborts. -/
def parseDigits : List Char → Int → Option Int
  | [], acc => some acc
  | ch :: rest, acc =>
    match digitVal ch with
    | some d => parseDigits rest (acc * 10 + d)
    | none => none

/-- Modelled from the spec: codec-level parsing of an `AmountValue`
(`Balance: MaybeFromStr`; the concrete `FromStr` impl is not under `src/`).
Per the spec, negative and non-numeric input is rejected at parse time:
only non-empty all-digit strings parse. -/
def parseAmount (s : String) : Except String Int :=
  match s.toList with
  | [] => .error "invalid amount: empty"
  | cs =>
    match parseDigits cs 0 with
    | some n => .ok n
    | none => .error "invalid amount: not a non-negative numeric string"

/-- The `Balance` codec used for request payloads: amounts travel as exact
decimal strings. -/
def parseAmountJson : Json → Except String Int
  | .str s => parseAmount s
  | _ => .error "invalid type: expected string amount"

/-- Character of one decimal digit. -/
def natDigitChar (n : Nat) : Char := Char.ofNat (48 + n % 10)

/-- Fuelled decimal rendering of a natural number (most significant digit
first); the fuel bounds the number of digits. -/
def natToDigits : Nat → Nat → List Char → List Char
  | 0, _, acc => acc
  | fuel + 1, n, acc =>
    if n < 10 then natDigitChar n :: acc
    else natToDigits fuel (n / 10) (natDigitChar n :: acc)

/-- Modelled from the spec: precision-preserving serialization of an
`AmountValue` (`Balance: MaybeDisplay`; the `Display`-based serializer lives
in `module_amm_rpc_runtime_api`, outside `src/`). An amount serializes as
its exact decimal rendering. -/
def serializeAmount (n : Nat) : String := ⟨natToDigits 200 n []⟩

/-- Whether a string is a valid (non-negative) decimal numeric literal. -/
def isNumericLiteral (s : String) : Bool :=
  !s.toList.isEmpty && s.toList.all Char.isDigit

/-- Outcome of a full transport-level call: either the transport rejects the
parameters before dispatch, or the dispatcher runs and returns its
`Result`. -/
inductive CallOutcome (α : Type) where
  | paramError (msg : String)
  | rpcFailure (e : RpcError)
  | success (v : α)
  deriving Repr

/-- Modelled from the spec: the transport decodes the amount parameter with
the `Balance` codec before dispatch (the jsonrpc parameter-decoding path is
not under `src/`); a codec failure takes the transport's parameter-error
path and the dispatcher is never invoked. -/
def rpc_call_spot_price (c : Client Hash AccountId AssetId Int E)
    (asset_a asset_b : AssetId) (amountStr : String) (atBlock : Option Hash) :
    CallOutcome (BalanceInfo AssetId Int) :=
  match parseAmount amountStr with
  | .error msg => .paramError msg
  | .ok n =>
    match get_spot_price c asset_a asset_b n atBlock with
    | .ok v => .success v
    | .error e => .rpcFailure e

/-- Modelled from the spec: transport-level call of `get_sell_price`, as in
`rpc_call_spot_price`. -/
def rpc_call_sell_price (c : Client Hash AccountId AssetId Int E)
    (asset_a asset_b : AssetId) (amountStr : String) (atBlock : Option Hash) :
    CallOutcome (BalanceInfo AssetId Int) :=
  match parseAmount amountStr with
  | .error msg => .paramError msg
  | .ok n =>
    match get_sell_price c asset_a asset_b n atBlock with
    | .ok v => .success v
    | .error e => .rpcFailure e

/-- Modelled from the spec: transport-level call of `get_buy_price`, as in
`rpc_call_spot_price`. -/
def rpc_call_buy_price (c : Client Hash AccountId AssetId Int E)
    (asset_a asset_b : AssetId) (amountStr : String) (atBlock : Option Hash) :
    CallOutcome (BalanceInfo AssetId Int) :=
  match parseAmount amountStr with
  | .error msg => .paramError msg
  | .ok n =>
    match get_buy_price c asset_a asset_b n atBlock with
    | .ok v => .success v
    | .error e => .rpcFailure e

/-- A spy client with integer amounts, for the transport-level theorems. -/
def intSpyClient (best : Nat) : Client Nat Nat Nat Int String where
  best_hash := best
  debugFmt := fun e => e
  api_get_spot_price := fun h a _ _ => .ok ⟨a, Int.ofNat h⟩
  api_get_sell_price := fun h a _ _ => .ok ⟨a, Int.ofNat h⟩
  api_get_buy_price := fun h a _ _ => .ok ⟨a, Int.ofNat h⟩
  api_get_pool_balances := fun h _ => .ok [⟨h, Int.ofNat h⟩]

theorem mapError_ok {ε ε' α : Type} (f : ε → ε') (v : α) :
    (Except.ok v : Except ε α).mapError f = .ok v := rfl

theorem mapError_error {ε ε' α : Type} (f : ε → ε') (e : ε) :
    (Except.error e : Except ε α).mapError f = .error (f e) := rfl

/-- C1: for each of the four operations, when the engine call (at the
resolved block hash) succeeds, the dispatcher returns exactly the
engine-returned value, unchanged. -/
theorem spec_c1 (c : Client Hash AccountId AssetId Balance E)
    (a b : AssetId) (m : Balance) (addr : AccountId) (atBlock : Option Hash) :
    (∀ v, c.api_get_spot_price (atBlock.getD c.best_hash) a b m = .ok v →
       get_spot_price c a b m atBlock = .ok v) ∧
    (∀ v, c.api_get_sell_price (atBlock.getD c.best_hash) a b m = .ok v →
       get_sell_price c a b m atBlock = .ok v) ∧
    (∀ v, c.api_get_buy_price (atBlock.getD c.best_hash) a b m = .ok v →
       get_buy_price c a b m atBlock = .ok v) ∧
    (∀ l, c.api_get_pool_balances (atBlock.getD c.best_hash) addr = .ok l →
       get_pool_balances c addr atBlock = .ok l) := by
  refine ⟨?_, ?_, ?_, ?_⟩ <;> intro v h <;>
    simp [get_spot_price, get_sell_price, get_buy_price, get_pool_balances, h, mapError_ok]

theorem spec_c1_witness :
    get_spot_price (spyClient 0) 1 2 3 (some 5) = .ok ⟨1, 5⟩ :=
  (spec_c1 (spyClient 0) 1 2 3 4 (some 5)).1 ⟨1, 5⟩ rfl

/-- C2: each operation returns an error iff the engine call fails, and the
error is exactly code `ServerError 1` with the fixed per-operation message
and the debug rendering of the failure as data. -/
theorem spec_c2 (c : Client Hash AccountId AssetId Balance E)
    (a b : AssetId) (m : Balance) (addr : AccountId) (atBlock : Option Hash) :
    ((∃ err, get_spot_price c a b m atBlock = .error err) ↔
       ∃ e, c.api_get_spot_price (atBlock.getD c.best_hash) a b m = .error e) ∧
    (∀ e, c.api_get_spot_price (atBlock.getD c.best_hash) a b m = .error e →
       get_spot_price c a b m atBlock =
         .error ⟨.serverError 1, "Unable to get spot price.", some (c.debugFmt e)⟩) ∧
    ((∃ err, get_sell_price c a b m atBlock = .error err) ↔
       ∃ e, c.api_get_sell_price (atBlock.getD c.best_hash) a b m = .error e) ∧
    (∀ e, c.api_get_sell_price (atBlock.getD c.best_hash) a b m = .error e →
       get_sell_price c a b m atBlock =
         .error ⟨.serverError 1, "Unable to calculate sell price.", some (c.debugFmt e)⟩) ∧
    ((∃ err, get_buy_price c a b m atBlock = .error err) ↔
       ∃ e, c.api_get_buy_price (atBlock.getD c.best_hash) a b m = .error e) ∧
    (∀ e, c.api_get_buy_price (atBlock.getD c.best_hash) a b m = .error e →
       get_buy_price c a b m atBlock =
         .error ⟨.serverError 1, "Unable to calculate buy price.", some (c.debugFmt e)⟩) ∧
    ((∃ err, get_pool_balances c addr atBlock = .error err) ↔
       ∃ e, c.api_get_pool_balances (atBlock.getD c.best_hash) addr = .error e) ∧
    (∀ e, c.api_get_pool_balances (atBlock.getD c.best_hash) addr = .error e →
       get_pool_balances c addr atBlock =
         .error ⟨.serverError 1, "Unable to retrieve pool balances.", some (c.debugFmt e)⟩) := by
  refine ⟨?_, ?_, ?_, ?_, ?_, ?_, ?_, ?_⟩
  · cases hE : c.api_get_spot_price (atBlock.getD c.best_hash) a b m <;>
      simp [get_spot_price, hE, mapError_ok, mapError_error]
  · intro e hE
    simp [get_spot_price, hE, mapError_error, Error.toInt]
  · cases hE : c.api_get_sell_price (atBlock.getD c.best_hash) a b m <;>
      simp [get_sell_price, hE, mapError_ok, mapError_error]
  · intro e hE
    simp [get_sell_price, hE, mapError_error, Error.toInt]
  · cases hE : c.api_get_buy_price (atBlock.getD c.best_hash) a b m <;>
      simp [get_buy_price, hE, mapError_ok, mapError_error]
  · intro e hE
    simp [get_buy_price, hE, mapError_error, Error.toInt]
  · cases hE : c.api_get_pool_balances (atBlock.getD c.best_hash) addr <;>
      simp [get_pool_balances, hE, mapError_ok, mapError_error]
  · intro e hE
    simp [get_pool_balances, hE, mapError_error, Error.toInt]

theorem spec_c2_witness :
    get_spot_price errClient 1 2 3 none =
      .error ⟨.serverError 1, "Unable to get spot price.", some "NoPoolFound"⟩ :=
  (spec_c2 errClient 1 2 3 4 none).2.1 "NoPoolFound" rfl

/-- C3: for every operation, a supplied snapshot id is passed to the engine
unchanged, and an absent snapshot id is resolved, per call, to the client's
current best hash — observed through a spy engine that reports back the
block hash it was invoked with. -/
theorem spec_c3 (best h a b m addr : Nat) :
    get_spot_price (spyClient best) a b m (some h) = .ok ⟨a, h⟩ ∧
    get_spot_price (spyClient best) a b m none = .ok ⟨a, best⟩ ∧
    get_sell_price (spyClient best) a b m (some h) = .ok ⟨a, h⟩ ∧
    get_sell_price (spyClient best) a b m none = .ok ⟨a, best⟩ ∧
    get_buy_price (spyClient best) a b m (some h) = .ok ⟨a, h⟩ ∧
    get_buy_price (spyClient best) a b m none = .ok ⟨a, best⟩ ∧
    get_pool_balances (spyClient best) addr (some h) = .ok [⟨h, h⟩] ∧
    get_pool_balances (spyClient best) addr none = .ok [⟨best, best⟩] :=
  ⟨rfl, rfl, rfl, rfl, rfl, rfl, rfl, rfl⟩

/-- C4: with an explicit snapshot id, the head-info capability is never
consulted: two clients with identical engines and debug rendering but
arbitrary (possibly different) best hashes produce identical results on
every operation called with `some h`. -/
theorem spec_c4 (c₁ c₂ : Client Hash AccountId AssetId Balance E)
    (hdbg : c₁.debugFmt = c₂.debugFmt)
    (hspot : c₁.api_get_spot_price = c₂.api_get_spot_price)
    (hsell : c₁.api_get_sell_price = c₂.api_get_sell_price)
    (hbuy : c₁.api_get_buy_price = c₂.api_get_buy_price)
    (hpool : c₁.api_get_pool_balances = c₂.api_get_pool_balances)
    (a b : AssetId) (m : Balance) (addr : AccountId) (h : Hash) :
    get_spot_price c₁ a b m (some h) = get_spot_price c₂ a b m (some h) ∧
    get_sell_price c₁ a b m (some h) = get_sell_price c₂ a b m (some h) ∧
    get_buy_price c₁ a b m (some h) = get_buy_price c₂ a b m (some h) ∧
    get_pool_balances c₁ addr (some h) = get_pool_balances c₂ addr (some h) := by
  simp [get_spot_price, get_sell_price, get_buy_price, get_pool_balances,
    hdbg, hspot, hsell, hbuy, hpool]

theorem spec_c4_witness :
    get_spot_price (spyClient 0) 1 2 3 (some 5) = get_spot_price (spyClient 7) 1 2 3 (some 5) ∧
    get_sell_price (spyClient 0) 1 2 3 (some 5) = get_sell_price (spyClient 7) 1 2 3 (some 5) ∧
    get_buy_price (spyClient 0) 1 2 3 (some 5) = get_buy_price (spyClient 7) 1 2 3 (some 5) ∧
    get_pool_balances (spyClient 0) 4 (some 5) = get_pool_balances (spyClient 7) 4 (some 5) :=
  spec_c4 (spyClient 0) (spyClient 7) rfl rfl rfl rfl rfl 1 2 3 4 5

/-- C5: `get_pool_balances` returns the engine list unchanged (in engine
order, including the empty list as `.ok []`), and has no partial-success
mode: every call either fully succeeds with the whole engine list or fully
fails. -/
theorem spec_c5 (c : Client Hash AccountId AssetId Balance E)
    (addr : AccountId) (atBlock : Option Hash) :
    (∀ l, c.api_get_pool_balances (atBlock.getD c.best_hash) addr = .ok l →
       get_pool_balances c addr atBlock = .ok l) ∧
    (c.api_get_pool_balances (atBlock.getD c.best_hash) addr = .ok [] →
       get_pool_balances c addr atBlock = .ok ([] : List (BalanceInfo AssetId Balance))) ∧
    ((∃ l, c.api_get_pool_balances (atBlock.getD c.best_hash) addr = .ok l ∧
        get_pool_balances c addr atBlock = .ok l) ∨
     (∃ e, c.api_get_pool_balances (atBlock.getD c.best_hash) addr = .error e ∧
        ∃ err, get_pool_balances c addr atBlock = .error err)) := by
  refine ⟨?_, ?_, ?_⟩
  · intro l h
    simp [get_pool_balances, h, mapError_ok]
  · intro h
    simp [get_pool_balances, h, mapError_ok]
  · cases hE : c.api_get_pool_balances (atBlock.getD c.best_hash) addr with
    | ok l => exact Or.inl ⟨l, rfl, by simp [get_pool_balances, hE, mapError_ok]⟩
    | error e =>
      exact Or.inr ⟨e, rfl,
        ⟨.serverError Error.RuntimeError.toInt, "Unable to retrieve pool balances.",
          some (c.debugFmt e)⟩,
        by simp [get_pool_balances, hE, mapError_error]⟩

theorem spec_c5_witness :
    get_pool_balances emptyPoolClient 4 none = .ok [] :=
  (spec_c5 emptyPoolClient 4 none).2.1 rfl

/-- C6: deserializing a `BalanceRequest` payload that contains any field
other than `amount` is a hard parse error — unrecognized fields are never
silently dropped, so such a payload never reaches the engine. -/
theorem spec_c6 (parseBalance : Json → Except String Balance)
    (fields : List (String × Json))
    (hbad : fields.any (fun f => !(f.1 == "amount")) = true) :
    ∃ msg, deserializeBalanceRequest parseBalance (Json.obj fields) = .error msg := by
  have hsome : (fields.find? (fun f => !(f.1 == "amount"))).isSome := by
    rw [List.find?_isSome]
    exact List.any_eq_true.mp hbad
  obtain ⟨f, hf⟩ := Option.isSome_iff_exists.mp hsome
  exact ⟨"unknown field " ++ f.1, by simp [deserializeBalanceRequest, hf]⟩

theorem spec_c6_witness :
    ∃ msg, deserializeBalanceRequest parseAmountJson
      (Json.obj [("amount", Json.str "10"), ("bogus", Json.boolean true)]) = .error msg :=
  spec_c6 parseAmountJson [("amount", Json.str "10"), ("bogus", Json.boolean true)] (by decide)

/-- C7: the maximum 128-bit value round-trips exactly as a string: it
serializes to precisely its 39-digit decimal rendering, that rendering is a
valid numeric literal, and it parses back to exactly the same value — no
precision loss. -/
theorem spec_c7 :
    serializeAmount 340282366920938463463374607431768211455 =
      "340282366920938463463374607431768211455" ∧
    isNumericLiteral "340282366920938463463374607431768211455" = true ∧
    parseAmount "340282366920938463463374607431768211455" =
      .ok 340282366920938463463374607431768211455 :=
  ⟨by decide, by decide, rfl⟩

theorem parseDigits_nonneg (cs : List Char) : ∀ acc : Int, 0 ≤ acc →
    ∀ n, parseDigits cs acc = some n → 0 ≤ n := by
  induction cs with
  | nil =>
    intro acc hacc n h
    simp [parseDigits] at h
    omega
  | cons ch rest ih =>
    intro acc hacc n h
    by_cases hd : ch.isDigit
    · simp [parseDigits, digitVal, hd] at h
      refine ih (acc * 10 + Int.ofNat (ch.toNat - 48)) ?_ n h
      have h48 : (0 : Int) ≤ Int.ofNat (ch.toNat - 48) := Int.ofNat_nonneg _
      linarith
    · simp [parseDigits, digitVal, hd] at h

theorem parseAmount_nonneg (s : String) (n : Int) (h : parseAmount s = .ok n) :
    0 ≤ n := by
  unfold parseAmount at h
  cases hcs : s.toList with
  | nil => rw [hcs] at h; simp at h
  | cons ch rest =>
    rw [hcs] at h
    cases hpd : parseDigits (ch :: rest) 0 with
    | none => simp [hpd] at h
    | some m =>
      simp [hpd] at h
      exact h ▸ parseDigits_nonneg (ch :: rest) 0 le_rfl m hpd

/-- C8: a non-numeric or negative amount string is rejected by the codec at
parse time and takes the transport's parameter-error path (never the
dispatcher), so it never surfaces as a `RuntimeFailure`; and whenever a call
does reach the dispatcher and fails with an RPC error, the amount had
parsed successfully to a non-negative value. -/
theorem spec_c8 (c : Client Hash AccountId AssetId Int E)
    (a b : AssetId) (s : String) (atBlock : Option Hash) :
    (∀ msg, parseAmount s = .error msg →
       rpc_call_spot_price c a b s atBlock = .paramError msg ∧
       rpc_call_sell_price c a b s atBlock = .paramError msg ∧
       rpc_call_buy_price c a b s atBlock = .paramError msg) ∧
    (∀ cs, s.toList = '-' :: cs → ∃ msg, parseAmount s = .error msg) ∧
    (∀ err, rpc_call_spot_price c a b s atBlock = .rpcFailure err →
       ∃ n, parseAmount s = .ok n ∧ 0 ≤ n) ∧
    (∀ err, rpc_call_sell_price c a b s atBlock = .rpcFailure err →
       ∃ n, parseAmount s = .ok n ∧ 0 ≤ n) ∧
    (∀ err, rpc_call_buy_price c a b s atBlock = .rpcFailure err →
       ∃ n, parseAmount s = .ok n ∧ 0 ≤ n) := by
  have hdv : digitVal '-' = none := rfl
  refine ⟨?_, ?_, ?_, ?_, ?_⟩
  · intro msg hmsg
    refine ⟨?_, ?_, ?_⟩ <;>
      simp [rpc_call_spot_price, rpc_call_sell_price, rpc_call_buy_price, hmsg]
  · intro cs hcs
    refine ⟨"invalid amount: not a non-negative numeric string", ?_⟩
    unfold parseAmount
    rw [hcs]
    simp [parseDigits, hdv]
  · intro err herr
    cases hp : parseAmount s with
    | error msg => simp [rpc_call_spot_price, hp] at herr
    | ok n => exact ⟨n, rfl, parseAmount_nonneg s n hp⟩
  · intro err herr
    cases hp : parseAmount s with
    | error msg => simp [rpc_call_sell_price, hp] at herr
    | ok n => exact ⟨n, rfl, parseAmount_nonneg s n hp⟩
  · intro err herr
    cases hp : parseAmount s with
    | error msg => simp [rpc_call_buy_price, hp] at herr
    | ok n => exact ⟨n, rfl, parseAmount_nonneg s n hp⟩

theorem spec_c8_witness :
    rpc_call_spot_price (intSpyClient 0) 1 2 "-10" none =
        .paramError "invalid amount: not a non-negative numeric string" ∧
    rpc_call_sell_price (intSpyClient 0) 1 2 "-10" none =
        .paramError "invalid amount: not a non-negative numeric string" ∧
    rpc_call_buy_price (intSpyClient 0) 1 2 "-10" none =
        .paramError "invalid amount: not a non-negative numeric string" :=
  (spec_c8 (intSpyClient 0) 1 2 "-10" none).1
    "invalid amount: not a non-negative numeric string" rfl

/-- C9: whenever any of the four operations produces an error, its optional
diagnostic `data` field is present (`some`), never absent. -/
theorem spec_c9 (c : Client Hash AccountId AssetId Balance E)
    (a b : AssetId) (m : Balance) (addr : AccountId) (atBlock : Option Hash) :
    (∀ err, get_spot_price c a b m atBlock = .error err → ∃ s, err.data = some s) ∧
    (∀ err, get_sell_price c a b m atBlock = .error err → ∃ s, err.data = some s) ∧
    (∀ err, get_buy_price c a b m atBlock = .error err → ∃ s, err.data = some s) ∧
    (∀ err, get_pool_balances c addr atBlock = .error err → ∃ s, err.data = some s) := by
  refine ⟨?_, ?_, ?_, ?_⟩
  · intro err h
    cases hE : c.api_get_spot_price (atBlock.getD c.best_hash) a b m with
    | ok v => simp [get_spot_price, hE, mapError_ok] at h
    | error e =>
      rw [get_spot_price, hE, mapError_error, Except.error.injEq] at h
      exact ⟨c.debugFmt e, by rw [← h]⟩
  · intro err h
    cases hE : c.api_get_sell_price (atBlock.getD c.best_hash) a b m with
    | ok v => simp [get_sell_price, hE, mapError_ok] at h
    | error e =>
      rw [get_sell_price, hE, mapError_error, Except.error.injEq] at h
      exact ⟨c.debugFmt e, by rw [← h]⟩
  · intro err h
    cases hE : c.api_get_buy_price (atBlock.getD c.best_hash) a b m with
    | ok v => simp [get_buy_price, hE, mapError_ok] at h
    | error e =>
      rw [get_buy_price, hE, mapError_error, Except.error.injEq] at h
      exact ⟨c.debugFmt e, by rw [← h]⟩
  · intro err h
    cases hE : c.api_get_pool_balances (atBlock.getD c.best_hash) addr with
    | ok v => simp [get_pool_balances, hE, mapError_ok] at h
    | error e =>
      rw [get_pool_balances, hE, mapError_error, Except.error.injEq] at h
      exact ⟨c.debugFmt e, by rw [← h]⟩

theorem spec_c9_witness :
    ∃ s, (RpcError.mk (.serverError 1) "Unable to get spot price."
      (some "NoPoolFound")).data = some s :=
  (spec_c9 errClient 1 2 3 4 none).1
    ⟨.serverError 1, "Unable to get spot price.", some "NoPoolFound"⟩ rfl

/-- C10: the four operation-specific error messages are exactly the four
documented strings, and those strings are pairwise distinct. -/
theorem spec_c10 (c : Client Hash AccountId AssetId Balance E)
    (a b : AssetId) (m : Balance) (addr : AccountId) (atBlock : Option Hash) :
    (∀ err, get_spot_price c a b m atBlock = .error err →
       err.message = "Unable to get spot price.") ∧
    (∀ err, get_sell_price c a b m atBlock = .error err →
       err.message = "Unable to calculate sell price.") ∧
    (∀ err, get_buy_price c a b m atBlock = .error err →
       err.message = "Unable to calculate buy price.") ∧
    (∀ err, get_pool_balances c addr atBlock = .error err →
       err.message = "Unable to retrieve pool balances.") ∧
    ("Unable to get spot price." ≠ "Unable to calculate sell price.") ∧
    ("Unable to get spot price." ≠ "Unable to calculate buy price.") ∧
    ("Unable to get spot price." ≠ "Unable to retrieve pool balances.") ∧
    ("Unable to calculate sell price." ≠ "Unable to calculate buy price.") ∧
    ("Unable to calculate sell price." ≠ "Unable to retrieve pool balances.") ∧
    ("Unable to calculate buy price." ≠ "Unable to retrieve pool balances.") := by
  refine ⟨?_, ?_, ?_, ?_, by decide, by decide, by decide, by decide, by decide, by decide⟩
  · intro err h
    cases hE : c.api_get_spot_price (atBlock.getD c.best_hash) a b m with
    | ok v => simp [get_spot_price, hE, mapError_ok] at h
    | error e =>
      rw [get_spot_price, hE, mapError_error, Except.error.injEq] at h
      rw [← h]
  · intro err h
    cases hE : c.api_get_sell_price (atBlock.getD c.best_hash) a b m with
    | ok v => simp [get_sell_price, hE, mapError_ok] at h
    | error e =>
      rw [get_sell_price, hE, mapError_error, Except.error.injEq] at h
      rw [← h]
  · intro err h
    cases hE : c.api_get_buy_price (atBlock.getD c.best_hash) a b m with
    | ok v => simp [get_buy_price, hE, mapError_ok] at h
    | error e =>
      rw [get_buy_price, hE, mapError_error, Except.error.injEq] at h
      rw [← h]
  · intro err h
    cases hE : c.api_get_pool_balances (atBlock.getD c.best_hash) addr with
    | ok v => simp [get_pool_balances, hE, mapError_ok] at h
    | error e =>
      rw [get_pool_balances, hE, mapError_error, Except.error.injEq] at h
      rw [← h]

theorem spec_c10_witness :
    (RpcError.mk (.serverError 1) "Unable to get spot price."
      (some "NoPoolFound")).message = "Unable to get spot price." :=
  (spec_c10 errClient 1 2 3 4 none).1
    ⟨.serverError 1, "Unable to get spot price.", some "NoPoolFound"⟩ rfl

end AmmRpc
